import Mathlib

/-!
# Verification of the authorization pipeline and course mutation workflow

Shallow embedding of the Learning-Management backend's faithful core:

* `src/middlewares/auth.middleware.js` — `isLoggedIn`, `authorizeRoles`,
  `authorizeSubscribers`;
* the course controller (`src/unnamed/part_000`) — `createCourse`,
  `addLectureToCourseById`, `removeLectureFromCourse`, `updateCourseById`.

JavaScript values that may be `undefined` are embedded as `Option`; the JS
falsiness test `!x` on a string-valued field is `strFalsy`.  External
collaborators (jwt verification, the cloudinary uploader/destroyer) are
parameters of the embedded handlers, so theorems quantify over their
behaviour.  The document store and the local `uploads/` staging directory are
explicit state (`Sys`), threaded through each handler.
-/

namespace LMS

/-- JS falsiness of a possibly-absent string: `undefined`, `null` and the
empty string are falsy (`!x` in the source). -/
def strFalsy : Option String → Bool
  | none => true
  | some s => s == ""

/-- `ApiError(message, statusCode)` from `utils/ApiError.js` (observable
shape: a message and the HTTP status code carried to the boundary). -/
structure ApiError where
  message : String
  statusCode : Nat
deriving DecidableEq, Repr

/-- Subscription object carried inside a decoded claim; its `status`
property may itself be absent (`undefined`). -/
structure Subscription where
  status : Option String
deriving DecidableEq, Repr

/-- A decoded session claim (`req.user`): the `role` string and the
`subscription` object, which a malformed claim may lack entirely. -/
structure Claim where
  role : String
  subscription : Option Subscription
deriving DecidableEq, Repr

/-- Outcome of `jwt.verify(token, secret)`: a truthy decoded claim, a falsy
decoded value, or a thrown verification error (bad signature, expired,
malformed). -/
inductive VerifyResult where
  | ok (c : Claim)
  | falsy
  | thrown (msg : String)
deriving DecidableEq, Repr

/-- Outcome of the `isLoggedIn` middleware: attach the claim and call
`next()` (handler logic runs only in this case), or reject via
`next(new ApiError(...))`. -/
inductive AuthOutcome where
  | accept (user : Claim)
  | reject (e : ApiError)
deriving DecidableEq, Repr

/-- Outcome of a guard middleware run after `isLoggedIn`: pass control to
the handler, reject with an `ApiError`, or throw a runtime `TypeError`
(which never reaches the 403 path). -/
inductive GuardOutcome where
  | pass
  | reject (e : ApiError)
  | thrown (msg : String)
deriving DecidableEq, Repr

/-- Modelled from the spec: `asyncHandler.middleware.js` and the error
boundary translator are not under `src/`; per the spec ("verification
throws/returns falsy → `Unauthenticated`", "both map to HTTP 401 at the
boundary"), an error thrown by `jwt.verify` is rendered with status 401. -/
def verifyThrowBoundary (msg : String) : ApiError :=
  { message := msg, statusCode := 401 }

/-- `isLoggedIn` (src/middlewares/auth.middleware.js:6-34): read the `token`
cookie; if falsy reject 401; verify it (`jwtVerify` embeds
`jwt.verify(·, JWT_SECRET)`); a falsy decoded value rejects 401; otherwise
attach the claim (`req.user = decoded`) and continue. -/
def isLoggedIn (token : Option String) (jwtVerify : String → VerifyResult) :
    AuthOutcome :=
  if strFalsy token then
    .reject { message := "Unauthorized, please login to continue", statusCode := 401 }
  else
    match token with
    | none => .reject { message := "Unauthorized, please login to continue", statusCode := 401 }
    | some t =>
      match jwtVerify t with
      | .thrown m => .reject (verifyThrowBoundary m)
      | .falsy => .reject { message := "Unauthorized, please login to continue", statusCode := 401 }
      | .ok c => .accept c

/-- `authorizeRoles(...roles)` (src/middlewares/auth.middleware.js:37-46):
reject 403 unless `roles.includes(req.user.role)`. -/
def authorizeRoles (roles : List String) (user : Claim) : GuardOutcome :=
  if roles.contains user.role then .pass
  else .reject { message := "You do not have permission to view this route", statusCode := 403 }

/-- `authorizeSubscribers` (src/middlewares/auth.middleware.js:49-57):
`if (req.user.role !== "ADMIN" && req.user.subscription.status !== "active")`
reject 403, else `next()`.  The `&&` short-circuits: an ADMIN claim never has
its `subscription` read; for a non-ADMIN claim the property read
`req.user.subscription.status` throws a `TypeError` when `subscription` is
absent. -/
def authorizeSubscribers (user : Claim) : GuardOutcome :=
  if user.role == "ADMIN" then .pass
  else
    match user.subscription with
    | none => .thrown "TypeError: Cannot read properties of undefined (reading status)"
    | some sub =>
      if sub.status == some "active" then .pass
      else .reject { message := "Please subscribe to access this route.", statusCode := 403 }

/-- A remote asset reference (`{public_id, secure_url}`); both properties
are absent until an upload succeeds. -/
structure AssetRef where
  public_id : Option String
  secure_url : Option String
deriving DecidableEq, Repr

/-- The empty asset reference (`lectureData = {}`, or the thumbnail of a
course created without a file). -/
def emptyAsset : AssetRef := { public_id := none, secure_url := none }

/-- A lecture embedded in a course: mongoose assigns `_id` at creation;
`lecture` is the embedded asset reference. -/
structure Lecture where
  _id : String
  title : String
  description : String
  lecture : AssetRef
deriving DecidableEq, Repr

/-- A Course document. Modelled from the spec for the parts the schema file
(`models/course.model.js`, not under `src/`) decides: a fresh course has an
empty thumbnail reference, an empty lecture list and lecture count 0
("thumbnail ... both optional until an upload succeeds"; "lecture count
(derived, must equal length of lecture list ...)"). -/
structure Course where
  _id : String
  title : String
  description : String
  category : String
  createdBy : String
  thumbnail : AssetRef
  lectures : List Lecture
  numberOfLectures : Nat
deriving DecidableEq, Repr

/-- The system state a course handler touches: the Course collection of the
document store, and the contents (file names) of the local `uploads/`
staging directory. -/
structure Sys where
  courses : List Course
  uploads : List String
deriving DecidableEq, Repr

/-- `Course.findById`: first document whose `_id` matches. -/
def findById (cs : List Course) (id : String) : Option Course :=
  cs.find? (fun c => c._id == id)

/-- `course.save()` on a document obtained from `findById`: write the
mutated document back over the first `_id` match. -/
def replaceById (cs : List Course) (id : String) (c' : Course) : List Course :=
  match cs with
  | [] => []
  | c :: rest => if c._id == id then c' :: rest else c :: replaceById rest id c'

/-- The single file multer attaches to a request (`req.file`): its staged
path and file name. -/
structure ReqFile where
  path : String
  filename : String
deriving DecidableEq, Repr

/-- A successful cloudinary upload result (`{public_id, secure_url}`). -/
structure AssetInfo where
  public_id : String
  secure_url : String
deriving DecidableEq, Repr

/-- Behaviour of `cloudinary.v2.uploader.upload`: either it throws
(`.error`, payload opaque), or it resolves — with the result object, or
falsy (the source guards `if (result)`). -/
def UploadFn : Type := ReqFile → Except String (Option AssetInfo)

/-- `JSON.stringify(error) || 'File not uploaded, please try again'`: the
opaque error payload is serialized (modelled as quoting it), and the
fallback is used only when the serialization is falsy (empty). -/
def uploadFailMessage (e : String) : String :=
  let s := "\x22" ++ e ++ "\x22"
  if s == "" then "File not uploaded, please try again" else s

/-- Result of a course handler: a 2xx JSON response carrying a payload, a
`next(new ApiError(...))` rejection, or an uncaught thrown error forwarded
by `asyncHandler`. -/
inductive HandlerResult (α : Type) where
  | ok (a : α)
  | apiErr (e : ApiError)
  | thrown (msg : String)
deriving DecidableEq, Repr

/-- The draft course `Course.create({title, description, category,
createdBy})` persists (schema defaults fill the rest, see `Course`);
mongoose assigns `newId`. -/
def newCourse (newId t d cat cb : String) : Course :=
  { _id := newId, title := t, description := d, category := cat,
    createdBy := cb, thumbnail := emptyAsset, lectures := [],
    numberOfLectures := 0 }

/-- `createCourse` (src/unnamed/part_000:22-80).  Validate the four body
fields (falsy check) → `Course.create` persists a draft → if a file is
attached, upload it: on resolve, set the thumbnail from the (truthy) result
and remove the staged file; on throw, unlink every file in `uploads/` and
reject 400, leaving the draft in place → `course.save()` persists the final
document.  `Course.create` persisting the draft and `course.save()`
persisting the updated document in place are modelled together as appending
the final document (the draft when the handler rejects before `save`). -/
def createCourse (title description category createdBy : Option String)
    (file : Option ReqFile) (upload : UploadFn) (newId : String) (s : Sys) :
    HandlerResult Course × Sys :=
  if strFalsy title || strFalsy description || strFalsy category || strFalsy createdBy then
    (.apiErr { message := "All fields are required", statusCode := 400 }, s)
  else
    let draft := newCourse newId (title.getD "") (description.getD "")
      (category.getD "") (createdBy.getD "")
    match file with
    | none =>
      (.ok draft, { s with courses := s.courses ++ [draft] })
    | some f =>
      match upload f with
      | .ok result =>
        let course :=
          match result with
          | some info =>
            { draft with thumbnail := { public_id := some info.public_id,
                                        secure_url := some info.secure_url } }
          | none => draft
        (.ok course, { courses := s.courses ++ [course],
                       uploads := s.uploads.erase f.filename })
      | .error e =>
        (.apiErr { message := uploadFailMessage e, statusCode := 400 },
         { courses := s.courses ++ [draft], uploads := [] })

/-- `addLectureToCourseById` (src/unnamed/part_000:100-166).  Validate
title/description → resolve the course (400 if absent) → if a file is
attached, upload it as a video (same cleanup-on-throw sweep as
`createCourse`) → push the lecture (mongoose assigns `newId`), set
`numberOfLectures` to the list length, save. -/
def addLectureToCourseById (id : String) (title description : Option String)
    (file : Option ReqFile) (upload : UploadFn) (newId : String) (s : Sys) :
    HandlerResult Course × Sys :=
  if strFalsy title || strFalsy description then
    (.apiErr { message := "Title and Description are required", statusCode := 400 }, s)
  else
    match findById s.courses id with
    | none =>
      (.apiErr { message := "Invalid course id or course not found.", statusCode := 400 }, s)
    | some course =>
      let staged :
          Except (ApiError × Sys) (AssetRef × Sys) :=
        match file with
        | none => .ok (emptyAsset, s)
        | some f =>
          match upload f with
          | .ok result =>
            let lectureData :=
              match result with
              | some info => { public_id := some info.public_id,
                               secure_url := some info.secure_url : AssetRef }
              | none => emptyAsset
            .ok (lectureData, { s with uploads := s.uploads.erase f.filename })
          | .error e =>
            .error ({ message := uploadFailMessage e, statusCode := 400 },
                    { s with uploads := [] })
      match staged with
      | .error (e, s') => (.apiErr e, s')
      | .ok (lectureData, s') =>
        let lectures := course.lectures ++
          [{ _id := newId, title := title.getD "", description := description.getD "",
             lecture := lectureData }]
        let course' := { course with
            lectures := lectures,
            numberOfLectures := lectures.length }
        (.ok course', { s' with courses := replaceById s'.courses id course' })

/-- The arguments of a `cloudinary.v2.uploader.destroy` call: the first
positional argument (`undefined` when the lecture's asset reference is
empty) and the `resource_type` option. -/
structure DestroyCall where
  public_id : Option String
  resource_type : String
deriving DecidableEq, Repr

/-- Behaviour of `cloudinary.v2.uploader.destroy`: resolves or throws. -/
def DestroyFn : Type := DestroyCall → Except String Unit

/-- Default lecture used to embed the always-in-bounds JS array access
`course.lectures[lectureIndex]`. -/
def dfltLecture : Lecture :=
  { _id := "", title := "", description := "", lecture := emptyAsset }

/-- `removeLectureFromCourse` (src/unnamed/part_000:169-224).  Require
`courseId` and `lectureId` query params (400) → resolve the course (404) →
`findIndex` the lecture by `_id` (404 when -1) → `destroy` the remote asset
with the lecture's `public_id` and `resource_type: "video"` (a throw here
propagates through `asyncHandler`, before any mutation) → `splice` the
lecture out, recompute `numberOfLectures`, save.  The middle component
records the destroy call, if one was issued. -/
def removeLectureFromCourse (courseId lectureId : Option String)
    (destroy : DestroyFn) (s : Sys) :
    HandlerResult Unit × Option DestroyCall × Sys :=
  if strFalsy courseId then
    (.apiErr { message := "Course ID is required", statusCode := 400 }, none, s)
  else if strFalsy lectureId then
    (.apiErr { message := "Lecture ID is required", statusCode := 400 }, none, s)
  else
    match findById s.courses (courseId.getD "") with
    | none =>
      (.apiErr { message := "Invalid ID or Course does not exist.", statusCode := 404 }, none, s)
    | some course =>
      match course.lectures.findIdx? (fun lec => lec._id == lectureId.getD "") with
      | none =>
        (.apiErr { message := "Lecture does not exist.", statusCode := 404 }, none, s)
      | some lectureIndex =>
        let call : DestroyCall :=
          { public_id := ((course.lectures.getD lectureIndex dfltLecture).lecture).public_id,
            resource_type := "video" }
        match destroy call with
        | .error m => (.thrown m, some call, s)
        | .ok _ =>
          let lectures := course.lectures.eraseIdx lectureIndex
          let course' := { course with
              lectures := lectures,
              numberOfLectures := lectures.length }
          (.ok (), some call,
           { s with courses := replaceById s.courses (courseId.getD "") course' })

/-- The `$set: req.body` payload of `updateCourseById`: any subset of the
Course schema's writable fields may be present in the JSON body. -/
structure UpdateBody where
  title : Option String
  description : Option String
  category : Option String
  createdBy : Option String
  thumbnail : Option AssetRef
  lectures : Option (List Lecture)
  numberOfLectures : Option Nat
deriving DecidableEq, Repr

/-- `$set` merge: fields present in the body overwrite the document. -/
def applySet (c : Course) (b : UpdateBody) : Course :=
  { c with
    title := b.title.getD c.title,
    description := b.description.getD c.description,
    category := b.category.getD c.category,
    createdBy := b.createdBy.getD c.createdBy,
    thumbnail := b.thumbnail.getD c.thumbnail,
    lectures := b.lectures.getD c.lectures,
    numberOfLectures := b.numberOfLectures.getD c.numberOfLectures }

/-- `updateCourseById` (src/unnamed/part_000:227-252):
`findByIdAndUpdate(id, {$set: req.body}, {runValidators: true})` — 400 when
the id resolves to no course, otherwise merge the body into the stored
document. -/
def updateCourseById (id : String) (body : UpdateBody) (s : Sys) :
    HandlerResult Unit × Sys :=
  match findById s.courses id with
  | none =>
    (.apiErr { message := "Invalid course id or course not found.", statusCode := 400 }, s)
  | some course =>
    (.ok (), { s with courses := replaceById s.courses id (applySet course body) })

/-! ## Theorems -/

/-- C1: for every request, if the session-token cookie is absent or the
credential fails verification in any way (falsy claim, or a thrown
bad-signature/expired/malformed error), `isLoggedIn` rejects — the handler
never runs (the outcome is `reject`, not `accept`) — with HTTP 401; and no
rejection it ever produces carries any status code other than 401. -/
theorem isLoggedIn_unauthenticated (token : Option String)
    (verify : String → VerifyResult) :
    (strFalsy token = true →
      isLoggedIn token verify =
        .reject { message := "Unauthorized, please login to continue", statusCode := 401 }) ∧
    (∀ t, token = some t →
      (verify t = .falsy ∨ (∃ m, verify t = .thrown m)) →
      ∃ e, isLoggedIn token verify = .reject e ∧ e.statusCode = 401) ∧
    (∀ e, isLoggedIn token verify = .reject e → e.statusCode = 401) := by
  refine ⟨?_, ?_, ?_⟩
  · intro h
    simp [isLoggedIn, h]
  · rintro t rfl hv
    by_cases hf : strFalsy (some t) = true
    · exact ⟨{ message := "Unauthorized, please login to continue", statusCode := 401 },
        by simp [isLoggedIn, hf], rfl⟩
    · rcases hv with hv | ⟨m, hv⟩
      · exact ⟨{ message := "Unauthorized, please login to continue", statusCode := 401 },
          by simp [isLoggedIn, hf, hv], rfl⟩
      · exact ⟨{ message := m, statusCode := 401 },
          by simp [isLoggedIn, hf, hv, verifyThrowBoundary], rfl⟩
  · intro e he
    unfold isLoggedIn at he
    split at he
    · cases he; rfl
    · split at he
      · cases he; rfl
      · split at he
        · cases he; rfl
        · cases he; rfl
        · cases he

/-- Witness for C1 at a concrete input: a request with no `token` cookie is
rejected with 401. -/
theorem isLoggedIn_unauthenticated_witness :
    isLoggedIn none (fun _ => VerifyResult.falsy) =
      .reject { message := "Unauthorized, please login to continue", statusCode := 401 } :=
  (isLoggedIn_unauthenticated none (fun _ => VerifyResult.falsy)).1 (by decide)

/-- C2: for every verified claim carrying a subscription object,
`authorizeSubscribers` passes an ADMIN claim regardless of subscription
status, passes a non-ADMIN claim iff its subscription status is
`"active"`, and otherwise rejects with 403. -/
theorem authorizeSubscribers_decision (user : Claim) (sub : Subscription)
    (hsub : user.subscription = some sub) :
    (user.role = "ADMIN" → authorizeSubscribers user = .pass) ∧
    (user.role ≠ "ADMIN" →
      ((authorizeSubscribers user = .pass ↔ sub.status = some "active") ∧
       (sub.status ≠ some "active" →
         authorizeSubscribers user =
           .reject { message := "Please subscribe to access this route.", statusCode := 403 }))) := by
  constructor
  · intro h
    simp [authorizeSubscribers, h]
  · intro h
    constructor
    · by_cases hs : sub.status = some "active" <;>
        simp [authorizeSubscribers, h, hsub, hs]
    · intro hs
      simp [authorizeSubscribers, h, hsub, hs]

/-- Witness for C2 at a concrete input: a LEARNER with an expired
subscription is rejected with 403. -/
theorem authorizeSubscribers_decision_witness :
    authorizeSubscribers
        { role := "LEARNER", subscription := some { status := some "expired" } } =
      .reject { message := "Please subscribe to access this route.", statusCode := 403 } :=
  ((authorizeSubscribers_decision
      { role := "LEARNER", subscription := some { status := some "expired" } }
      { status := some "expired" } rfl).2 (by decide)).2 (by decide)

/-- C3: for every verified claim and non-empty allowed-role list,
`authorizeRoles` rejects with 403 exactly when the claim's role is not a
member of the list, and passes otherwise; no role (ADMIN included) gets a
bypass beyond list membership. -/
theorem authorizeRoles_membership (roles : List String) (user : Claim)
    (_hne : roles ≠ []) :
    (authorizeRoles roles user =
        .reject { message := "You do not have permission to view this route", statusCode := 403 }
      ↔ user.role ∉ roles) ∧
    (user.role ∈ roles → authorizeRoles roles user = .pass) := by
  constructor
  · by_cases h : user.role ∈ roles <;>
      simp [authorizeRoles, List.elem_iff, h]
  · intro h
    simp [authorizeRoles, List.elem_iff, h]

/-- Witness for C3 at a concrete input: an ADMIN claim is rejected by an
allowed set that does not contain ADMIN. -/
theorem authorizeRoles_membership_witness :
    authorizeRoles ["LEARNER"] { role := "ADMIN", subscription := none } =
      .reject { message := "You do not have permission to view this route", statusCode := 403 } :=
  (authorizeRoles_membership ["LEARNER"] { role := "ADMIN", subscription := none }
      (by decide)).1.mpr (by decide)

/-- C9: `authorizeSubscribers` never consults the subscription of an ADMIN
claim (the outcome is `pass` for every value of the field — the `&&`
short-circuits); a non-ADMIN claim with no subscription object makes the
guard throw, never reject; and any non-ADMIN claim that reaches the
pass-or-403 decision carries a subscription object. -/
theorem authorizeSubscribers_subscription_read (user : Claim) :
    (user.role = "ADMIN" →
      ∀ sub, authorizeSubscribers { user with subscription := sub } = .pass) ∧
    (user.role ≠ "ADMIN" → user.subscription = none →
      authorizeSubscribers user =
        .thrown "TypeError: Cannot read properties of undefined (reading status)" ∧
      ∀ e, authorizeSubscribers user ≠ .reject e) ∧
    (user.role ≠ "ADMIN" →
      (authorizeSubscribers user = .pass ∨
        authorizeSubscribers user =
          .reject { message := "Please subscribe to access this route.", statusCode := 403 }) →
      user.subscription ≠ none) := by
  refine ⟨?_, ?_, ?_⟩
  · intro h sub
    simp [authorizeSubscribers, h]
  · intro h hnone
    refine ⟨by simp [authorizeSubscribers, h, hnone], ?_⟩
    intro e
    simp [authorizeSubscribers, h, hnone]
  · intro h hdec hnone
    rcases hdec with hdec | hdec <;>
      simp [authorizeSubscribers, h, hnone] at hdec

/-- Witness for C9 at a concrete input: a LEARNER claim with no
subscription object makes the guard throw. -/
theorem authorizeSubscribers_subscription_read_witness :
    authorizeSubscribers { role := "LEARNER", subscription := none } =
      .thrown "TypeError: Cannot read properties of undefined (reading status)" :=
  ((authorizeSubscribers_subscription_read
      { role := "LEARNER", subscription := none }).2.1 (by decide) rfl).1

/-- C4: a course-create request with any of the four body fields missing
(falsy) fails with 400 `"All fields are required"`, and the system state —
in particular the Course collection — is unchanged: no record is
persisted. -/
theorem createCourse_missing_field (title description category createdBy : Option String)
    (file : Option ReqFile) (upload : UploadFn) (newId : String) (s : Sys)
    (hmiss : strFalsy title = true ∨ strFalsy description = true ∨
      strFalsy category = true ∨ strFalsy createdBy = true) :
    createCourse title description category createdBy file upload newId s =
      (.apiErr { message := "All fields are required", statusCode := 400 }, s) := by
  rcases hmiss with h | h | h | h <;> simp [createCourse, h]

/-- Witness for C4 at a concrete input: a create request missing `title`
leaves a non-empty store untouched. -/
theorem createCourse_missing_field_witness :
    createCourse none (some "Intro") (some "Math") (some "u1") none
        (fun _ => .ok none) "c9"
        { courses := [newCourse "c1" "T" "D" "C" "u"], uploads := ["f.png"] } =
      (.apiErr { message := "All fields are required", statusCode := 400 },
       { courses := [newCourse "c1" "T" "D" "C" "u"], uploads := ["f.png"] }) :=
  createCourse_missing_field none (some "Intro") (some "Math") (some "u1") none
    (fun _ => .ok none) "c9"
    { courses := [newCourse "c1" "T" "D" "C" "u"], uploads := ["f.png"] }
    (Or.inl (by decide))

/-- C5: a course-create request with a valid payload and an attached file
whose remote upload throws leaves the already-persisted draft course in
place (no rollback), empties the whole staging directory (whatever it
contained), and fails with 400 (`UploadFailed`). -/
theorem createCourse_upload_failure (t d cat cb : String) (f : ReqFile)
    (upload : UploadFn) (newId : String) (s : Sys) (e : String)
    (ht : t ≠ "") (hd : d ≠ "") (hcat : cat ≠ "") (hcb : cb ≠ "")
    (hup : upload f = .error e) :
    createCourse (some t) (some d) (some cat) (some cb) (some f) upload newId s =
      (.apiErr { message := uploadFailMessage e, statusCode := 400 },
       { courses := s.courses ++ [newCourse newId t d cat cb], uploads := [] }) := by
  simp [createCourse, strFalsy, ht, hd, hcat, hcb, hup]

/-- Witness for C5 at a concrete input: the draft survives, the staging
directory (which held an unrelated file too) ends empty, and the response
is the 400 upload failure. -/
theorem createCourse_upload_failure_witness :
    createCourse (some "Algebra") (some "Intro") (some "Math") (some "u1")
        (some { path := "uploads/a.png", filename := "a.png" })
        (fun _ => .error "cloud down") "c1"
        { courses := [], uploads := ["a.png", "other.png"] } =
      (.apiErr { message := uploadFailMessage "cloud down", statusCode := 400 },
       { courses := [newCourse "c1" "Algebra" "Intro" "Math" "u1"], uploads := [] }) :=
  createCourse_upload_failure "Algebra" "Intro" "Math" "u1"
    { path := "uploads/a.png", filename := "a.png" }
    (fun _ => .error "cloud down") "c1"
    { courses := [], uploads := ["a.png", "other.png"] } "cloud down"
    (by decide) (by decide) (by decide) (by decide) rfl

/-- Membership after a `replaceById` write-back: an element of the updated
collection is the written document or was already present. -/
theorem mem_replaceById {cs : List Course} {id : String} {c' x : Course}
    (hx : x ∈ replaceById cs id c') : x = c' ∨ x ∈ cs := by
  induction cs with
  | nil => simp [replaceById] at hx
  | cons c rest ih =>
    by_cases h : (c._id == id) = true
    · simp [replaceById, h] at hx
      rcases hx with hx | hx
      · exact Or.inl hx
      · exact Or.inr (List.mem_cons_of_mem _ hx)
    · simp [replaceById, h] at hx
      rcases hx with hx | hx
      · exact Or.inr (by simp [hx])
      · rcases ih hx with h' | h'
        · exact Or.inl h'
        · exact Or.inr (List.mem_cons_of_mem _ h')

/-- `findById` after writing `c'` back over the slot it was read from:
the lookup now returns `c'` (whose `_id` still matches). -/
theorem findById_replaceById {cs : List Course} {id : String} {c c' : Course}
    (h : findById cs id = some c) (h' : (c'._id == id) = true) :
    findById (replaceById cs id c') id = some c' := by
  induction cs with
  | nil => simp [findById] at h
  | cons c0 rest ih =>
    by_cases h0 : (c0._id == id) = true
    · simp [findById, replaceById, h0, h']
    · simp [findById, replaceById, h0] at h ⊢
      exact ih h

/-- The derived-count invariant on a single Course document. -/
def CountOk (c : Course) : Prop := c.numberOfLectures = c.lectures.length

/-- The derived-count invariant over the whole Course collection. -/
def StoreOk (s : Sys) : Prop := ∀ c ∈ s.courses, CountOk c

/-- A stored course for the C6 counterexample: empty lecture list,
count 0. -/
def cexCourse : Course := newCourse "c1" "T" "D" "C" "u1"

/-- An update body that `$set`s only `numberOfLectures`. -/
def cexBody : UpdateBody :=
  { title := none, description := none, category := none, createdBy := none,
    thumbnail := none, lectures := none, numberOfLectures := some 5 }

/-- Counterexample to C6 as stated: `updateCourseById` with a body that
`$set`s `numberOfLectures := 5` on a course with an empty lecture list is a
successful mutation, yet afterwards the stored course has
`numberOfLectures = 5 ≠ 0 = lectures.length`. -/
theorem updateCourse_count_counterexample :
    (updateCourseById "c1" cexBody { courses := [cexCourse], uploads := [] }).1 =
        HandlerResult.ok () ∧
    findById (updateCourseById "c1" cexBody
        { courses := [cexCourse], uploads := [] }).2.courses "c1" =
      some { cexCourse with numberOfLectures := 5 } ∧
    ({ cexCourse with numberOfLectures := 5 } : Course).numberOfLectures ≠
      ({ cexCourse with numberOfLectures := 5 } : Course).lectures.length :=
  ⟨rfl, rfl, by decide⟩

/-- C6 amended: the count invariant holds after create, add-lecture and
remove-lecture, and is preserved by update whenever the `$set` body touches
neither `lectures` nor `numberOfLectures` (as stated, C6 fails: an update
body may `$set` either field independently, see
`updateCourse_count_counterexample`).  Stated as preservation over the
whole collection: from a collection in which every course satisfies
`CountOk`, every mutation — succeeding or failing — leaves a collection in
which every course does. -/
theorem lectureCount_invariant :
    (∀ title description category createdBy file upload newId s, StoreOk s →
      StoreOk (createCourse title description category createdBy file upload newId s).2) ∧
    (∀ id title description file upload newId s, StoreOk s →
      StoreOk (addLectureToCourseById id title description file upload newId s).2) ∧
    (∀ courseId lectureId destroy s, StoreOk s →
      StoreOk (removeLectureFromCourse courseId lectureId destroy s).2.2) ∧
    (∀ id body s, body.lectures = none → body.numberOfLectures = none → StoreOk s →
      StoreOk (updateCourseById id body s).2) := by
  refine ⟨?_, ?_, ?_, ?_⟩
  · intro title description category createdBy file upload newId s hs
    by_cases hv : (strFalsy title || strFalsy description ||
        strFalsy category || strFalsy createdBy) = true
    · simpa [createCourse, hv] using hs
    · cases file with
      | none =>
        simp only [createCourse, hv, Bool.false_eq_true, if_false]
        intro c hc
        rcases List.mem_append.mp hc with hc | hc
        · exact hs c hc
        · simp at hc
          subst hc
          simp [CountOk, newCourse]
      | some f =>
        cases hup : upload f with
        | ok result =>
          cases result with
          | none =>
            simp only [createCourse, hv, Bool.false_eq_true, if_false, hup]
            intro c hc
            rcases List.mem_append.mp hc with hc | hc
            · exact hs c hc
            · simp at hc
              subst hc
              simp [CountOk, newCourse]
          | some info =>
            simp only [createCourse, hv, Bool.false_eq_true, if_false, hup]
            intro c hc
            rcases List.mem_append.mp hc with hc | hc
            · exact hs c hc
            · simp at hc
              subst hc
              simp [CountOk, newCourse]
        | error e =>
          simp only [createCourse, hv, Bool.false_eq_true, if_false, hup]
          intro c hc
          rcases List.mem_append.mp hc with hc | hc
          · exact hs c hc
          · simp at hc
            subst hc
            simp [CountOk, newCourse]
  · intro id title description file upload newId s hs
    by_cases hv : (strFalsy title || strFalsy description) = true
    · simpa [addLectureToCourseById, hv] using hs
    · cases hfind : findById s.courses id with
      | none => simpa [addLectureToCourseById, hv, hfind] using hs
      | some course =>
        cases file with
        | none =>
          simp only [addLectureToCourseById, hv, Bool.false_eq_true, if_false, hfind]
          intro c hc
          rcases mem_replaceById hc with hc | hc
          · subst hc
            simp [CountOk]
          · exact hs c hc
        | some f =>
          cases hup : upload f with
          | ok result =>
            simp only [addLectureToCourseById, hv, Bool.false_eq_true, if_false, hfind, hup]
            intro c hc
            rcases mem_replaceById hc with hc | hc
            · subst hc
              simp [CountOk]
            · exact hs c hc
          | error e =>
            simpa [addLectureToCourseById, hv, hfind, hup] using hs
  · intro courseId lectureId destroy s hs
    by_cases hc1 : strFalsy courseId = true
    · simpa [removeLectureFromCourse, hc1] using hs
    · by_cases hc2 : strFalsy lectureId = true
      · simpa [removeLectureFromCourse, hc1, hc2] using hs
      · cases hfind : findById s.courses (courseId.getD "") with
        | none => simpa [removeLectureFromCourse, hc1, hc2, hfind] using hs
        | some course =>
          cases hidx : course.lectures.findIdx?
              (fun lec => lec._id == lectureId.getD "") with
          | none => simpa [removeLectureFromCourse, hc1, hc2, hfind, hidx] using hs
          | some lectureIndex =>
            simp only [removeLectureFromCourse, hc1, hc2, Bool.false_eq_true,
              if_false, hfind, hidx]
            split
            · exact hs
            · intro c hc
              rcases mem_replaceById hc with hc | hc
              · subst hc
                simp [CountOk]
              · exact hs c hc
  · intro id body s hl hn hs
    cases hfind : findById s.courses id with
    | none => simpa [updateCourseById, hfind] using hs
    | some course =>
      simp only [updateCourseById, hfind]
      intro c hc
      rcases mem_replaceById hc with hc | hc
      · subst hc
        have hcourse : CountOk course :=
          hs course (List.mem_of_find?_eq_some hfind)
        simpa [CountOk, applySet, hl, hn] using hcourse
      · exact hs c hc

/-- Witness for the amended C6 at a concrete input: an update that `$set`s
only the title preserves the invariant over a concrete store. -/
theorem lectureCount_invariant_witness :
    StoreOk (updateCourseById "c1"
        { title := some "New", description := none, category := none,
          createdBy := none, thumbnail := none, lectures := none,
          numberOfLectures := none }
        { courses := [cexCourse], uploads := [] }).2 :=
  lectureCount_invariant.2.2.2 "c1"
    { title := some "New", description := none, category := none,
      createdBy := none, thumbnail := none, lectures := none,
      numberOfLectures := none }
    { courses := [cexCourse], uploads := [] } rfl rfl
    (by intro c hc; simp at hc; subst hc; simp [CountOk, cexCourse, newCourse])

/-- The course document after the in-memory push, count recompute and save
of a no-file `addLectureToCourseById`: the new lecture carries an empty
asset reference. -/
def pushedCourse (c : Course) (newId t d : String) : Course :=
  let lectures := c.lectures ++
    [{ _id := newId, title := t, description := d, lecture := emptyAsset }]
  { c with
    lectures := lectures,
    numberOfLectures := lectures.length }

/-- Characterization of a no-file `addLectureToCourseById` on an existing
course with valid title and description. -/
theorem addLecture_noFile (id t d : String) (upload : UploadFn) (newId : String)
    (s : Sys) (c : Course) (ht : t ≠ "") (hd : d ≠ "")
    (hc : findById s.courses id = some c) :
    addLectureToCourseById id (some t) (some d) none upload newId s =
      (HandlerResult.ok (pushedCourse c newId t d),
       ({ s with courses := replaceById s.courses id (pushedCourse c newId t d) } : Sys)) := by
  simp [addLectureToCourseById, strFalsy, ht, hd, hc, pushedCourse]

/-- C7: on an existing course, a no-file add-lecture with valid title and
description followed by remove-lecture with the id the add assigned
succeeds and returns the course's lecture list to its pre-add length, with
`numberOfLectures` equal to that length. -/
theorem addLecture_removeLecture_roundtrip (s : Sys) (cid t d newId : String)
    (c : Course) (upload : UploadFn) (destroy : DestroyFn)
    (hcid : cid ≠ "") (hnew : newId ≠ "") (ht : t ≠ "") (hd : d ≠ "")
    (hc : findById s.courses cid = some c)
    (hdestroy : ∀ call, destroy call = Except.ok ()) :
    (removeLectureFromCourse (some cid) (some newId) destroy
        (addLectureToCourseById cid (some t) (some d) none upload newId s).2).1 =
      HandlerResult.ok () ∧
    Option.map (fun c2 => (c2.lectures.length, c2.numberOfLectures))
        (findById (removeLectureFromCourse (some cid) (some newId) destroy
          (addLectureToCourseById cid (some t) (some d) none upload newId s).2).2.2.courses
          cid) =
      some (c.lectures.length, c.lectures.length) := by
  have hc0 : s.courses.find? (fun x => x._id == cid) = some c := hc
  have hcid' : (c._id == cid) = true := by
    have h := List.find?_some hc0
    simpa using h
  rw [addLecture_noFile cid t d upload newId s c ht hd hc]
  set c1 := pushedCourse c newId t d with hc1
  have hfind1 : findById (replaceById s.courses cid c1) cid = some c1 :=
    findById_replaceById hc (by simpa [hc1, pushedCourse] using hcid')
  obtain ⟨i, hi⟩ : ∃ i, c1.lectures.findIdx? (fun lec => lec._id == newId) = some i := by
    cases h : c1.lectures.findIdx? (fun lec => lec._id == newId) with
    | some i => exact ⟨i, rfl⟩
    | none =>
      rw [List.findIdx?_eq_none_iff] at h
      have hmem := h { _id := newId, title := t, description := d, lecture := emptyAsset }
        (by simp [hc1, pushedCourse])
      simp at hmem
  have hbound : i < c1.lectures.length :=
    (List.findIdx?_eq_some_iff_findIdx_eq.mp hi).1
  have hlen : c1.lectures.length = c.lectures.length + 1 := by
    simp [hc1, pushedCourse]
  set c2 : Course := { c1 with
    lectures := c1.lectures.eraseIdx i,
    numberOfLectures := (c1.lectures.eraseIdx i).length } with hc2
  have hrem1 : (removeLectureFromCourse (some cid) (some newId) destroy
      { s with courses := replaceById s.courses cid c1 }).1 = HandlerResult.ok () := by
    simp [removeLectureFromCourse, strFalsy, hcid, hnew, hfind1, hi, hdestroy]
  have hrem2 : (removeLectureFromCourse (some cid) (some newId) destroy
      { s with courses := replaceById s.courses cid c1 }).2.2 =
      { s with courses := replaceById (replaceById s.courses cid c1) cid c2 } := by
    simp [removeLectureFromCourse, strFalsy, hcid, hnew, hfind1, hi, hdestroy, hc2]
  refine ⟨hrem1, ?_⟩
  rw [hrem2]
  have hfind2 : findById (replaceById (replaceById s.courses cid c1) cid c2) cid =
      some c2 :=
    findById_replaceById hfind1 (by simpa [hc2, hc1, pushedCourse] using hcid')
  simp only [hfind2, Option.map_some]
  have hlen2 : (c1.lectures.eraseIdx i).length = c.lectures.length := by
    rw [List.length_eraseIdx, if_pos hbound, hlen]
    simp
  simp [hc2, hlen2]

/-- Witness for C7 at a concrete input: one add/remove round trip on a
freshly created course ends with an empty lecture list and count 0. -/
theorem addLecture_removeLecture_roundtrip_witness :
    (removeLectureFromCourse (some "c1") (some "l1") (fun _ => Except.ok ())
        (addLectureToCourseById "c1" (some "L") (some "LD") none
          (fun _ => Except.ok none) "l1"
          { courses := [newCourse "c1" "T" "D" "C" "u"], uploads := [] }).2).1 =
      HandlerResult.ok () ∧
    Option.map (fun c2 => (c2.lectures.length, c2.numberOfLectures))
        (findById (removeLectureFromCourse (some "c1") (some "l1") (fun _ => Except.ok ())
          (addLectureToCourseById "c1" (some "L") (some "LD") none
            (fun _ => Except.ok none) "l1"
            { courses := [newCourse "c1" "T" "D" "C" "u"], uploads := [] }).2).2.2.courses
          "c1") =
      some (0, 0) :=
  addLecture_removeLecture_roundtrip
    { courses := [newCourse "c1" "T" "D" "C" "u"], uploads := [] }
    "c1" "L" "LD" "l1" (newCourse "c1" "T" "D" "C" "u")
    (fun _ => Except.ok none) (fun _ => Except.ok ())
    (by decide) (by decide) (by decide) (by decide) rfl (fun _ => rfl)

/-- C8: remove-lecture on an existing course with a lectureId matching no
lecture of that course fails with 404 `"Lecture does not exist."`, issues
no destroy call, and leaves the whole system state (hence the course's
lecture list and `numberOfLectures`) unchanged. -/
theorem removeLecture_unknown_lecture (s : Sys) (cid lid : String) (c : Course)
    (destroy : DestroyFn) (hcid : cid ≠ "") (hlid : lid ≠ "")
    (hc : findById s.courses cid = some c)
    (habs : ∀ lec ∈ c.lectures, (lec._id == lid) = false) :
    removeLectureFromCourse (some cid) (some lid) destroy s =
      (.apiErr { message := "Lecture does not exist.", statusCode := 404 }, none, s) := by
  have hidx : c.lectures.findIdx? (fun lec => lec._id == lid) = none := by
    rw [List.findIdx?_eq_none_iff]
    simpa using habs
  simp [removeLectureFromCourse, strFalsy, hcid, hlid, hc, hidx]

/-- Witness for C8 at a concrete input: removing an unknown lecture id from
a course with one lecture changes nothing. -/
theorem removeLecture_unknown_lecture_witness :
    removeLectureFromCourse (some "c1") (some "zz") (fun _ => Except.ok ())
        { courses := [pushedCourse (newCourse "c1" "T" "D" "C" "u") "l1" "L" "LD"],
          uploads := [] } =
      (.apiErr { message := "Lecture does not exist.", statusCode := 404 }, none,
       { courses := [pushedCourse (newCourse "c1" "T" "D" "C" "u") "l1" "L" "LD"],
         uploads := [] }) :=
  removeLecture_unknown_lecture
    { courses := [pushedCourse (newCourse "c1" "T" "D" "C" "u") "l1" "L" "LD"],
      uploads := [] }
    "c1" "zz" (pushedCourse (newCourse "c1" "T" "D" "C" "u") "l1" "L" "LD")
    (fun _ => Except.ok ()) (by decide) (by decide) rfl (by decide)

/-- C10: whenever remove-lecture has located the target lecture (so in
particular on every successful request), it issues exactly one remote
destroy call, with that lecture's `public_id` and `resource_type` `"video"`;
the call precedes the list mutation (if the destroy throws, the store is
unchanged); and when the lecture's asset reference is empty the call
carries no public id (`undefined`). -/
theorem removeLecture_destroy_call (s : Sys) (cid lid : String) (c : Course)
    (i : Nat) (destroy : DestroyFn) (hcid : cid ≠ "") (hlid : lid ≠ "")
    (hc : findById s.courses cid = some c)
    (hi : c.lectures.findIdx? (fun lec => lec._id == lid) = some i) :
    (removeLectureFromCourse (some cid) (some lid) destroy s).2.1 =
      some { public_id := ((c.lectures.getD i dfltLecture).lecture).public_id,
             resource_type := "video" } ∧
    (∀ m, destroy { public_id := ((c.lectures.getD i dfltLecture).lecture).public_id,
                    resource_type := "video" } = .error m →
      (removeLectureFromCourse (some cid) (some lid) destroy s).2.2 = s) ∧
    ((c.lectures.getD i dfltLecture).lecture = emptyAsset →
      ((c.lectures.getD i dfltLecture).lecture).public_id = none) := by
  refine ⟨?_, ?_, ?_⟩
  · simp only [removeLectureFromCourse, strFalsy]
    simp only [Option.getD_some, hc, hi]
    rw [if_neg (by simp [hcid]), if_neg (by simp [hlid])]
    split <;> rfl
  · intro m hdes
    simp only [removeLectureFromCourse, strFalsy]
    simp only [Option.getD_some, hc, hi]
    rw [if_neg (by simp [hcid]), if_neg (by simp [hlid])]
    rw [hdes]
  · intro h
    rw [h]
    rfl

/-- Witness for C10 at a concrete input: removing a lecture that was added
without a file issues a destroy call whose public id is `undefined`. -/
theorem removeLecture_destroy_call_witness :
    (removeLectureFromCourse (some "c1") (some "l1") (fun _ => Except.ok ())
        { courses := [pushedCourse (newCourse "c1" "T" "D" "C" "u") "l1" "L" "LD"],
          uploads := [] }).2.1 =
      some { public_id := none, resource_type := "video" } :=
  (removeLecture_destroy_call
    { courses := [pushedCourse (newCourse "c1" "T" "D" "C" "u") "l1" "L" "LD"],
      uploads := [] }
    "c1" "l1" (pushedCourse (newCourse "c1" "T" "D" "C" "u") "l1" "L" "LD") 0
    (fun _ => Except.ok ()) (by decide) (by decide) rfl rfl).1

end LMS
